import Mathlib

/-!
Verification of the Smart-Mirror display script (smartmirror.py).

Shallow embedding: the refresh step of each widget (Clock.tick, Weather.get_weather,
News.get_headlines) becomes a pure function from its inputs (the external fetch
results, given as parameters) and its current display state to the new state,
the list of UI redraw calls it performs, and the delay it reschedules itself
with.  Exceptions raised by the network/JSON layer are modelled with
`Except String`; the `try`/`except` boundary of each method becomes a `match`
on that value.
-/

namespace SmartMirror

/-! ## Constants (module-level constants of smartmirror.py) -/

def UI_LOCALE : String := ""

def TIME_FORMAT : Nat := 12

def DATE_FORMAT : String := "%b %d, %Y"

def NEWS_COUNTRY_CODE : Option String := some "es-AR"

def NEWS_URL : String := "https://news.google.com/rss?hl"

def WEATHER_API_TOKEN : String := ""

def WEATHER_LANG : String := "en"

def WEATHER_API_URL : String := "http://api.openweathermap.org/data/2.5/weather"

def GEOIP_API_TOKEN : String := ""

def LATITUDE : Option ℚ := some (-26.6316062)

def LONGITUDE : Option ℚ := some (-54.1174863)

/-- The `icon_lookup` dict mapping OpenWeatherMap icon codes to asset paths. -/
def icon_lookup : List (String × String) :=
  [("01d", "assets/Sun.png"),
   ("01n", "assets/Moon.png"),
   ("02d", "assets/PartlySunny.png"),
   ("02n", "assets/PartlyMoon.png"),
   ("03d", "assets/Cloud.png"),
   ("03n", "assets/Cloud.png"),
   ("04d", "assets/Cloud.png"),
   ("04n", "assets/Cloud.png"),
   ("09d", "assets/Rain.png"),
   ("09n", "assets/Rain.png"),
   ("10d", "assets/Rain.png"),
   ("10n", "assets/Rain.png"),
   ("11d", "assets/Storm.png"),
   ("11n", "assets/Storm.png"),
   ("13d", "assets/Snow.png"),
   ("13n", "assets/Snow.png"),
   ("50d", "assets/Haze.png"),
   ("50n", "assets/Haze.png")]

/-- Python `x or None` applied to an `icon_lookup.get(icon_id, None)` result:
a falsy value (`None` or the empty string) becomes `None`. -/
def orNone : Option String → Option String
  | none => none
  | some s => if s = "" then none else some s

/-! ## Clock widget -/

/-- The mutable fields of the `Clock` frame: the three cached strings and the
text currently shown on the three labels. -/
structure ClockState where
  time_old : String
  day_of_week_old : String
  date_old : String
  time_lbl : String
  day_of_wk_lbl : String
  date_lbl : String
deriving DecidableEq

/-- `Clock.__init__` sets the cached strings to the empty string; the labels start empty. -/
def initClockState : ClockState := ⟨"", "", "", "", "", ""⟩

/-- One `label.config(text=...)` call performed by `Clock.tick`. -/
inductive ClockCall where
  | timeText (s : String)
  | dayText (s : String)
  | dateText (s : String)
deriving DecidableEq

/-- `Clock.tick`.  `strftime` stands for `time.strftime` under the process
locale: it maps a format string to the formatted current time.  Returns the
new state, the label updates performed, and the `after` delay (200 ms). -/
def Clock.tick (strftime : String → String) (s : ClockState) :
    ClockState × List ClockCall × Nat :=
  let time_updated :=
    if TIME_FORMAT = 12 then strftime "%I:%M%p" else strftime "%H:%M"
  let day_of_week_updated := strftime "%A"
  let date_updated := strftime DATE_FORMAT
  let r1 :=
    if time_updated ≠ s.time_old then
      ({ s with time_old := time_updated, time_lbl := time_updated },
       [ClockCall.timeText time_updated])
    else (s, [])
  let r2 :=
    if day_of_week_updated ≠ r1.1.day_of_week_old then
      ({ r1.1 with day_of_week_old := day_of_week_updated,
                   day_of_wk_lbl := day_of_week_updated },
       r1.2 ++ [ClockCall.dayText day_of_week_updated])
    else (r1.1, r1.2)
  let r3 :=
    if date_updated ≠ r2.1.date_old then
      ({ r2.1 with date_old := date_updated, date_lbl := date_updated },
       r2.2 ++ [ClockCall.dateText date_updated])
    else (r2.1, r2.2)
  (r3.1, r3.2, 200)

/-! ## Weather widget -/

/-- `Weather.convert_kelvin_to_fahrenheit`. -/
def convert_kelvin_to_fahrenheit (kelvin_temp : ℚ) : ℚ :=
  1.8 * (kelvin_temp - 273) + 32

/-- `Weather.convert_kelvin_to_celsius` (applied in `get_weather` to
`int` applied to the temp reading, hence the integer domain). -/
def convert_kelvin_to_celsius (kelvin_temp : ℤ) : ℤ :=
  kelvin_temp - 273

/-- Python `int()` on a (rational-valued) float: truncation toward zero. -/
def pyInt (q : ℚ) : ℤ := q.num.tdiv (q.den : ℤ)

def degree_sign : String := "°"

/-- The mutable fields of the `Weather` frame: the five cached values and the
content currently shown by each label (`icon_lbl_image` is the asset path of
the displayed photo, `""` when the image is cleared / not set). -/
structure WeatherState where
  temperature : String
  forecast : String
  actual_location : String
  currently : String
  icon : String
  temperature_lbl : String
  currently_lbl : String
  forecast_lbl : String
  actual_location_lbl : String
  icon_lbl_image : String
deriving DecidableEq

/-- `Weather.__init__`: all cached values empty, all labels empty. -/
def initWeatherState : WeatherState := ⟨"", "", "", "", "", "", "", "", "", ""⟩

/-- One widget redraw call performed by `Weather.get_weather`:
a `config` on one of the labels. -/
inductive RedrawCall where
  | iconImage (path : String)
  | iconClear
  | currentlyText (s : String)
  | forecastText (s : String)
  | temperatureText (s : String)
  | locationText (s : String)
deriving DecidableEq

/-- The fields `get_weather` extracts from the weather-API JSON body:
`main.temp`, `weather[0].main`, `weather[0].description`, `weather[0].icon`,
`name`.  A response from which extraction fails (malformed JSON, missing key)
is modelled as `Except.error` at the fetch site instead. -/
structure WeatherJson where
  temp : ℚ
  main : String
  description : String
  icon : String
  name : String
deriving DecidableEq

/-- The fields `get_weather` reads from the geolocation JSON body. -/
structure GeoResponse where
  latitude : ℚ
  longitude : ℚ
  city : String
  region_code : String
deriving DecidableEq

/-- Outcome of the request to jsonip.com and the extraction of the ip
field inside `get_ip`: success, a JSON-decode failure, a missing-key
failure, or an exception raised by the transport itself. -/
inductive IpFetch where
  | ok (ip : String)
  | jsonError
  | keyError
  | networkError (msg : String)
deriving DecidableEq

/-- `Weather.get_ip`.  Its `except` clause catches only
`json.decoder.JSONDecodeError` and `KeyError`, returning the literal sentinel
string; any other exception (e.g. from `requests.get`) propagates
(`Except.error`). -/
def get_ip : IpFetch → Except String String
  | IpFetch.ok ip => Except.ok ip
  | IpFetch.jsonError => Except.ok "Error: Cannot get ip."
  | IpFetch.keyError => Except.ok "Error: Cannot get ip."
  | IpFetch.networkError m => Except.error m

/-- The geolocation request URL built in `get_weather`.  The f-string uses a
backslash line continuation, so the 20 spaces indenting the next source
line are part of the URL. -/
def actual_location_req_url (ip apikey : String) : String :=
  "https://api.freegeoip.app/json                    /" ++ ip ++
    "?apikey=" ++ apikey

/-- The parameters of the weather request
(`?lat=...&lon=...&lang=...&appid=...`).  A `none` coordinate renders as the
string `None` in the real URL; we keep the raw optional value. -/
structure WeatherRequest where
  lat : Option ℚ
  lon : Option ℚ
  lang : String
  appid : String
deriving DecidableEq

/-- Lines 256-268: the icon update.  A mapped icon is redrawn only when it
differs from the cached `self.icon`; an unmapped icon (`icon2 is None`)
unconditionally clears the image (and does not touch `self.icon`). -/
def update_icon (icon2 : Option String) (s : WeatherState) :
    WeatherState × List RedrawCall :=
  match icon2 with
  | some p =>
    if s.icon ≠ p then
      ({ s with icon := p, icon_lbl_image := p }, [RedrawCall.iconImage p])
    else (s, [])
  | none => ({ s with icon_lbl_image := "" }, [RedrawCall.iconClear])

/-- Lines 270-272: `if self.currently != currently2`. -/
def update_currently (currently2 : String) (s : WeatherState) :
    WeatherState × List RedrawCall :=
  if s.currently ≠ currently2 then
    ({ s with currently := currently2, currently_lbl := currently2 },
     [RedrawCall.currentlyText currently2])
  else (s, [])

/-- Lines 273-275: `if self.forecast != forecast2`. -/
def update_forecast (forecast2 : String) (s : WeatherState) :
    WeatherState × List RedrawCall :=
  if s.forecast ≠ forecast2 then
    ({ s with forecast := forecast2, forecast_lbl := forecast2 },
     [RedrawCall.forecastText forecast2])
  else (s, [])

/-- Lines 276-278: `if self.temperature != temperature2`. -/
def update_temperature (temperature2 : String) (s : WeatherState) :
    WeatherState × List RedrawCall :=
  if s.temperature ≠ temperature2 then
    ({ s with temperature := temperature2, temperature_lbl := temperature2 },
     [RedrawCall.temperatureText temperature2])
  else (s, [])

/-- Lines 279-285: the location update, with the `", "` placeholder replaced
by `"Cannot Pinpoint Location"`. -/
def update_location (actual_location2 : String) (s : WeatherState) :
    WeatherState × List RedrawCall :=
  if s.actual_location ≠ actual_location2 then
    if actual_location2 = ", " then
      ({ s with actual_location := "Cannot Pinpoint Location",
                actual_location_lbl := "Cannot Pinpoint Location" },
       [RedrawCall.locationText "Cannot Pinpoint Location"])
    else
      ({ s with actual_location := actual_location2,
                actual_location_lbl := actual_location2 },
       [RedrawCall.locationText actual_location2])
  else (s, [])

/-- Lines 241-285 of `get_weather`: field extraction from a successfully
parsed weather response, then the five update blocks in source order. -/
def success_update (weather_obj : WeatherJson) (s : WeatherState) :
    WeatherState × List RedrawCall :=
  let celsius_temp := convert_kelvin_to_celsius (pyInt weather_obj.temp)
  let temperature2 := toString celsius_temp ++ degree_sign
  let currently2 := weather_obj.main
  let forecast2 := weather_obj.description
  let actual_location2 := weather_obj.name
  let icon_id := weather_obj.icon
  let icon2 := orNone (List.lookup icon_id icon_lookup)
  let r1 := update_icon icon2 s
  let r2 := update_currently currently2 r1.1
  let r3 := update_forecast forecast2 r2.1
  let r4 := update_temperature temperature2 r3.1
  let r5 := update_location actual_location2 r4.1
  (r5.1, r1.2 ++ r2.2 ++ r3.2 ++ r4.2 ++ r5.2)

/-- Result of one `get_weather` poll: the new widget state, the redraw calls
performed, whether the geolocation branch was taken, the geolocation URL
requested (when that branch ran up to the geolocation fetch), the weather
request issued, whether the `except` clause fired, and the `after` delay. -/
structure PollResult where
  state : WeatherState
  calls : List RedrawCall
  geoTaken : Bool
  geo_url : Option String
  request : Option WeatherRequest
  failed : Bool
  delay : Nat
deriving DecidableEq

/-- The body of the `try` block of `get_weather`.  When both coordinates are
`None` it resolves the public IP (`get_ip`; a network error there
propagates), builds the geolocation URL, fetches the geolocation (the
assembled `city, region_code` string is bound here in the source but is
overwritten by the name field of the weather response further down, so it
is not retained),
and uses the returned coordinates; otherwise it uses the static coordinates.
Then it fetches the weather and runs the update blocks. -/
def get_weather_attempt (lat lon : Option ℚ) (ip : IpFetch)
    (geo : Except String GeoResponse) (weather : Except String WeatherJson)
    (s : WeatherState) :
    Except String (Option String × WeatherRequest × WeatherState × List RedrawCall) := do
  let pre ←
    if lat.isNone && lon.isNone then do
      let ipv ← get_ip ip
      let url := actual_location_req_url ipv GEOIP_API_TOKEN
      let g ← geo
      pure (some url,
            WeatherRequest.mk (some g.latitude) (some g.longitude)
              WEATHER_LANG WEATHER_API_TOKEN)
    else
      pure ((none : Option String),
            WeatherRequest.mk lat lon WEATHER_LANG WEATHER_API_TOKEN)
  let weather_obj ← weather
  let su := success_update weather_obj s
  pure (pre.1, pre.2, su.1, su.2)

/-- `Weather.get_weather`: the `try` body, with `except Exception` swallowing
any failure (state untouched, no redraw), and the unconditional
`self.after(600000, self.get_weather)` after the `try`/`except`. -/
def get_weather (lat lon : Option ℚ) (ip : IpFetch)
    (geo : Except String GeoResponse) (weather : Except String WeatherJson)
    (s : WeatherState) : PollResult :=
  match get_weather_attempt lat lon ip geo weather s with
  | Except.ok r =>
      PollResult.mk r.2.2.1 r.2.2.2 (lat.isNone && lon.isNone) r.1
        (some r.2.1) false 600000
  | Except.error _ =>
      PollResult.mk s [] (lat.isNone && lon.isNone) none none true 600000

/-! ## News widget -/

/-- `News.get_headlines`.  The state is the ordered list of headline titles
currently rendered in the container.  Inside the `try` block the source
destroys all existing rows first, then builds the feed URL, parses the feed
(`feed` is the parse outcome; an exception there is caught by the `except`),
and rebuilds one row per entry of `feed.entries[0:5]`.  The reschedule delay
(600000 ms) follows the `try`/`except` unconditionally.  Returns the rows
displayed after the poll, the feed URL, and the delay. -/
def get_headlines (country : Option String)
    (feed : Except String (List String)) (rows : List String) :
    List String × String × Nat :=
  let cleared : List String := []
  let headlines_url :=
    match country with
    | none => NEWS_URL ++ "=en-US"
    | some c => NEWS_URL ++ "=" ++ c
  match feed with
  | Except.ok entries => (cleared ++ entries.take 5, headlines_url, 600000)
  | Except.error _ => (cleared, headlines_url, 600000)

/-! ## Helper lemmas about the weather update blocks -/

theorem update_icon_keeps (icon2 : Option String) (s : WeatherState) :
    (update_icon icon2 s).1.currently = s.currently
    ∧ (update_icon icon2 s).1.forecast = s.forecast
    ∧ (update_icon icon2 s).1.temperature = s.temperature
    ∧ (update_icon icon2 s).1.actual_location = s.actual_location := by
  rcases icon2 with _ | p
  · exact ⟨rfl, rfl, rfl, rfl⟩
  · by_cases h : s.icon = p <;> simp [update_icon, h]

theorem update_currently_keeps (c : String) (s : WeatherState) :
    (update_currently c s).1.icon = s.icon
    ∧ (update_currently c s).1.icon_lbl_image = s.icon_lbl_image
    ∧ (update_currently c s).1.forecast = s.forecast
    ∧ (update_currently c s).1.temperature = s.temperature
    ∧ (update_currently c s).1.actual_location = s.actual_location := by
  unfold update_currently
  split <;> exact ⟨rfl, rfl, rfl, rfl, rfl⟩

theorem update_forecast_keeps (c : String) (s : WeatherState) :
    (update_forecast c s).1.icon = s.icon
    ∧ (update_forecast c s).1.icon_lbl_image = s.icon_lbl_image
    ∧ (update_forecast c s).1.currently = s.currently
    ∧ (update_forecast c s).1.temperature = s.temperature
    ∧ (update_forecast c s).1.actual_location = s.actual_location := by
  unfold update_forecast
  split <;> exact ⟨rfl, rfl, rfl, rfl, rfl⟩

theorem update_temperature_keeps (c : String) (s : WeatherState) :
    (update_temperature c s).1.icon = s.icon
    ∧ (update_temperature c s).1.icon_lbl_image = s.icon_lbl_image
    ∧ (update_temperature c s).1.currently = s.currently
    ∧ (update_temperature c s).1.forecast = s.forecast
    ∧ (update_temperature c s).1.actual_location = s.actual_location := by
  unfold update_temperature
  split <;> exact ⟨rfl, rfl, rfl, rfl, rfl⟩

theorem update_location_keeps (c : String) (s : WeatherState) :
    (update_location c s).1.icon = s.icon
    ∧ (update_location c s).1.icon_lbl_image = s.icon_lbl_image
    ∧ (update_location c s).1.currently = s.currently
    ∧ (update_location c s).1.forecast = s.forecast
    ∧ (update_location c s).1.temperature = s.temperature := by
  unfold update_location
  split
  · split <;> exact ⟨rfl, rfl, rfl, rfl, rfl⟩
  · exact ⟨rfl, rfl, rfl, rfl, rfl⟩

theorem update_icon_some_cache (p : String) (s : WeatherState) :
    (update_icon (some p) s).1.icon = p := by
  by_cases h : s.icon = p <;> simp [update_icon, h]

theorem update_currently_cache (c : String) (s : WeatherState) :
    (update_currently c s).1.currently = c := by
  unfold update_currently
  split <;> simp_all

theorem update_forecast_cache (c : String) (s : WeatherState) :
    (update_forecast c s).1.forecast = c := by
  unfold update_forecast
  split <;> simp_all

theorem update_temperature_cache (c : String) (s : WeatherState) :
    (update_temperature c s).1.temperature = c := by
  unfold update_temperature
  split <;> simp_all

theorem update_location_cache (c : String) (s : WeatherState) (h : c ≠ ", ") :
    (update_location c s).1.actual_location = c := by
  unfold update_location
  split_ifs <;> simp_all

theorem update_icon_noop (p : String) (s : WeatherState) (h : s.icon = p) :
    update_icon (some p) s = (s, []) := by
  unfold update_icon
  simp [h]

theorem update_currently_noop (c : String) (s : WeatherState)
    (h : s.currently = c) : update_currently c s = (s, []) := by
  unfold update_currently
  simp [h]

theorem update_forecast_noop (c : String) (s : WeatherState)
    (h : s.forecast = c) : update_forecast c s = (s, []) := by
  unfold update_forecast
  simp [h]

theorem update_temperature_noop (c : String) (s : WeatherState)
    (h : s.temperature = c) : update_temperature c s = (s, []) := by
  unfold update_temperature
  simp [h]

theorem update_location_noop (c : String) (s : WeatherState)
    (h : s.actual_location = c) : update_location c s = (s, []) := by
  unfold update_location
  simp [h]

/-- Unfolding of `success_update` into the chain of update blocks. -/
theorem success_update_eq (w : WeatherJson) (s : WeatherState) :
    success_update w s =
      ((update_location w.name
          (update_temperature
              (toString (convert_kelvin_to_celsius (pyInt w.temp)) ++ degree_sign)
              (update_forecast w.description
                (update_currently w.main
                  (update_icon (orNone (List.lookup w.icon icon_lookup)) s).1).1).1).1).1,
       (update_icon (orNone (List.lookup w.icon icon_lookup)) s).2 ++
       (update_currently w.main
          (update_icon (orNone (List.lookup w.icon icon_lookup)) s).1).2 ++
       (update_forecast w.description
          (update_currently w.main
            (update_icon (orNone (List.lookup w.icon icon_lookup)) s).1).1).2 ++
       (update_temperature
          (toString (convert_kelvin_to_celsius (pyInt w.temp)) ++ degree_sign)
          (update_forecast w.description
            (update_currently w.main
              (update_icon (orNone (List.lookup w.icon icon_lookup)) s).1).1).1).2 ++
       (update_location w.name
          (update_temperature
              (toString (convert_kelvin_to_celsius (pyInt w.temp)) ++ degree_sign)
              (update_forecast w.description
                (update_currently w.main
                  (update_icon (orNone (List.lookup w.icon icon_lookup)) s).1).1).1).1).2) :=
  rfl

/-- Cache fields of the weather state after a successful update pass. -/
theorem success_update_state (w : WeatherJson) (s : WeatherState) :
    (success_update w s).1.currently = w.main
    ∧ (success_update w s).1.forecast = w.description
    ∧ (success_update w s).1.temperature
        = toString (convert_kelvin_to_celsius (pyInt w.temp)) ++ degree_sign
    ∧ (∀ p, orNone (List.lookup w.icon icon_lookup) = some p →
        (success_update w s).1.icon = p)
    ∧ (w.name ≠ ", " → (success_update w s).1.actual_location = w.name) := by
  rw [success_update_eq]
  refine ⟨?_, ?_, ?_, ?_, ?_⟩
  · rw [(update_location_keeps _ _).2.2.1,
        (update_temperature_keeps _ _).2.2.1,
        (update_forecast_keeps _ _).2.2.1,
        update_currently_cache]
  · rw [(update_location_keeps _ _).2.2.2.1,
        (update_temperature_keeps _ _).2.2.2.1,
        update_forecast_cache]
  · rw [(update_location_keeps _ _).2.2.2.2,
        update_temperature_cache]
  · intro p hp
    rw [(update_location_keeps _ _).1,
        (update_temperature_keeps _ _).1,
        (update_forecast_keeps _ _).1,
        (update_currently_keeps _ _).1, hp,
        update_icon_some_cache]
  · intro hname
    exact update_location_cache _ _ hname

/-- Reduction of a weather poll under the static coordinates of the repo
and a successful weather fetch: the geolocation branch is skipped and the
update pass runs. -/
theorem get_weather_const_ok (ip : IpFetch) (geo : Except String GeoResponse)
    (w : WeatherJson) (s : WeatherState) :
    get_weather LATITUDE LONGITUDE ip geo (Except.ok w) s =
      PollResult.mk (success_update w s).1 (success_update w s).2 false none
        (some (WeatherRequest.mk LATITUDE LONGITUDE WEATHER_LANG WEATHER_API_TOKEN))
        false 600000 := by
  unfold get_weather get_weather_attempt
  simp [LATITUDE, LONGITUDE, bind, Except.bind, pure, Except.pure]

/-- Reduction of a weather poll on the geolocation branch (both coordinates
`None`) when every fetch succeeds. -/
theorem get_weather_geo_ok (i : String) (g : GeoResponse) (w : WeatherJson)
    (s : WeatherState) :
    get_weather none none (IpFetch.ok i) (Except.ok g) (Except.ok w) s =
      PollResult.mk (success_update w s).1 (success_update w s).2 true
        (some (actual_location_req_url i GEOIP_API_TOKEN))
        (some (WeatherRequest.mk (some g.latitude) (some g.longitude)
          WEATHER_LANG WEATHER_API_TOKEN))
        false 600000 := by
  unfold get_weather get_weather_attempt get_ip
  simp [bind, Except.bind, pure, Except.pure]

/-- `update_location` on the `", "` placeholder displays the fallback text
whenever the cached location differs from `", "`. -/
theorem update_location_cpl (s : WeatherState) (h : s.actual_location ≠ ", ") :
    (update_location ", " s).1.actual_location_lbl
      = "Cannot Pinpoint Location" := by
  unfold update_location
  split_ifs <;> simp_all

/-- `update_location` on a non-placeholder location displays it whenever it
differs from the cached value. -/
theorem update_location_sets (c : String) (s : WeatherState)
    (hne : s.actual_location ≠ c) (hc : c ≠ ", ") :
    (update_location c s).1.actual_location_lbl = c := by
  unfold update_location
  split_ifs <;> simp_all

/-- A successful update pass starting from a state whose cached fields all
equal the freshly extracted fields performs no redraw call and leaves the
state unchanged. -/
theorem success_update_noop (w : WeatherJson) (s1 : WeatherState) (p : String)
    (hp : orNone (List.lookup w.icon icon_lookup) = some p) (hip : s1.icon = p)
    (hc : s1.currently = w.main) (hf : s1.forecast = w.description)
    (ht : s1.temperature
      = toString (convert_kelvin_to_celsius (pyInt w.temp)) ++ degree_sign)
    (hl : s1.actual_location = w.name) :
    success_update w s1 = (s1, []) := by
  simp only [success_update_eq, hp, update_icon_noop p s1 hip,
    update_currently_noop w.main s1 hc, update_forecast_noop w.description s1 hf,
    update_temperature_noop _ s1 ht, update_location_noop w.name s1 hl,
    List.append_nil, List.nil_append]

/-- The `geoTaken` component of a poll is exactly the branch condition
`LATITUDE is None and LONGITUDE is None`. -/
theorem get_weather_geoTaken (lat lon : Option ℚ) (ip : IpFetch)
    (geo : Except String GeoResponse) (weather : Except String WeatherJson)
    (s : WeatherState) :
    (get_weather lat lon ip geo weather s).geoTaken
      = (lat.isNone && lon.isNone) := by
  unfold get_weather
  cases get_weather_attempt lat lon ip geo weather s <;> rfl

/-- Reduction of a weather poll on the static branch (not both coordinates
`None`) with a successful weather fetch. -/
theorem get_weather_static_ok (lat lon : Option ℚ) (ip : IpFetch)
    (geo : Except String GeoResponse) (w : WeatherJson) (s : WeatherState)
    (h : (lat.isNone && lon.isNone) = false) :
    get_weather lat lon ip geo (Except.ok w) s =
      PollResult.mk (success_update w s).1 (success_update w s).2 false none
        (some (WeatherRequest.mk lat lon WEATHER_LANG WEATHER_API_TOKEN))
        false 600000 := by
  unfold get_weather get_weather_attempt
  rw [h]
  simp [bind, Except.bind, pure, Except.pure]

/-- Python `int(300.9)` is 300: truncation toward zero. -/
theorem pyInt_truncates : pyInt (300.9 : ℚ) = 300 := by
  have h1 : (300.9 : ℚ).num = 3009 := by norm_num
  have h2 : (300.9 : ℚ).den = 10 := by norm_num
  unfold pyInt
  rw [h1, h2]
  decide

/-! ## The claims -/

/-- Claim C1, counterexample.  The claim says a failed feed fetch leaves the
previously rendered headline rows untouched; in the source the children
of the container are destroyed before the feed is fetched, so after a failed poll the
rows are not the previous ones. -/
theorem news_error_keeps_rows_counterexample :
    (get_headlines NEWS_COUNTRY_CODE (Except.error "boom") ["old headline"]).1
      ≠ ["old headline"] := by
  decide

/-- Claim C1, amended: for every news poll in which the feed fetch raises an
error, the previously rendered headline rows have already been destroyed (the
container is cleared before the fetch), so the display after the failed poll
is empty; the poll is still rescheduled 600000 ms later. -/
theorem news_error_clears_rows (country : Option String) (m : String)
    (rows : List String) :
    (get_headlines country (Except.error m) rows).1 = []
    ∧ (get_headlines country (Except.error m) rows).2.2 = 600000 :=
  ⟨rfl, rfl⟩

/-- Claim C7: a successfully fetched feed displays exactly its first five
entry titles in feed order, and a feed with fewer than five entries displays
all of them in feed order. -/
theorem news_takes_first_five (country : Option String)
    (entries rows : List String) :
    (get_headlines country (Except.ok entries) rows).1 = entries.take 5
    ∧ (entries.length < 5 →
        (get_headlines country (Except.ok entries) rows).1 = entries) := by
  constructor
  · show [] ++ entries.take 5 = entries.take 5
    simp
  · intro h
    show [] ++ entries.take 5 = entries
    simp [List.take_of_length_le (Nat.le_of_lt h)]

/-- Witness for C7: an 8-entry feed displays its first five titles; a
2-entry feed displays both. -/
theorem news_takes_first_five_witness :
    (get_headlines NEWS_COUNTRY_CODE
        (Except.ok ["a", "b", "c", "d", "e", "f", "g", "h"]) []).1
      = ["a", "b", "c", "d", "e"]
    ∧ (get_headlines NEWS_COUNTRY_CODE (Except.ok ["a", "b"]) []).1
      = ["a", "b"] := by
  constructor
  · exact (news_takes_first_five NEWS_COUNTRY_CODE
      ["a", "b", "c", "d", "e", "f", "g", "h"] []).1.trans (by decide)
  · exact (news_takes_first_five NEWS_COUNTRY_CODE ["a", "b"] []).2 (by decide)

/-- Claim C4: Kelvin to Celsius is `Kelvin - 273` (applied after integer
truncation of the source reading) and Kelvin to Fahrenheit is
`1.8 * (Kelvin - 273) + 32`; in particular 300 K gives 27 °C and 80.6 °F.
The last conjunct shows the truncation: a reading of 300.9 K is displayed
as 27°. -/
theorem kelvin_conversion_values :
    convert_kelvin_to_celsius 300 = 27
    ∧ convert_kelvin_to_fahrenheit 300 = 80.6
    ∧ (∀ k : ℤ, convert_kelvin_to_celsius k = k - 273)
    ∧ (∀ k : ℚ, convert_kelvin_to_fahrenheit k = 1.8 * (k - 273) + 32)
    ∧ (success_update (WeatherJson.mk 300.9 "Clear" "clear sky" "01d" "Springfield")
        initWeatherState).1.temperature_lbl = "27" ++ degree_sign := by
  refine ⟨by decide, by norm_num [convert_kelvin_to_fahrenheit],
    fun k => rfl, fun k => rfl, ?_⟩
  rw [success_update_eq]
  rw [show (WeatherJson.mk (300.9 : ℚ) "Clear" "clear sky" "01d"
        "Springfield").temp = (300.9 : ℚ) from rfl, pyInt_truncates]
  decide

/-- Claim C5: icon code "01d" maps to the clear-sky-day asset; an icon code
absent from `icon_lookup` (such as "99x") makes the poll clear the displayed
icon image instead of raising. -/
theorem icon_lookup_behavior (w : WeatherJson) (s : WeatherState)
    (h : orNone (List.lookup w.icon icon_lookup) = none) :
    orNone (List.lookup "01d" icon_lookup) = some "assets/Sun.png"
    ∧ orNone (List.lookup "99x" icon_lookup) = none
    ∧ (success_update w s).1.icon_lbl_image = "" := by
  refine ⟨by decide, by decide, ?_⟩
  rw [success_update_eq]
  rw [(update_location_keeps _ _).2.1, (update_temperature_keeps _ _).2.1,
      (update_forecast_keeps _ _).2.1, (update_currently_keeps _ _).2.1, h]
  rfl

/-- Witness for C5 at the concrete unmapped code "99x". -/
theorem icon_lookup_behavior_witness :
    orNone (List.lookup "01d" icon_lookup) = some "assets/Sun.png"
    ∧ orNone (List.lookup "99x" icon_lookup) = none
    ∧ (success_update (WeatherJson.mk 300 "Clear" "clear sky" "99x" "Springfield")
        initWeatherState).1.icon_lbl_image = "" :=
  icon_lookup_behavior
    (WeatherJson.mk 300 "Clear" "clear sky" "99x" "Springfield")
    initWeatherState (by decide)

/-- Claim C3: a weather poll whose fetch fails with any exception leaves
every displayed field at its last-known value and performs no redraw call,
and the next poll is scheduled 600000 ms later; the delay is the same
600000 ms whether the poll failed or succeeded. -/
theorem weather_failure_preserves_and_reschedules (lat lon : Option ℚ)
    (ip : IpFetch) (geo : Except String GeoResponse)
    (weather : Except String WeatherJson) (s : WeatherState) :
    ((get_weather lat lon ip geo weather s).failed = true →
      (get_weather lat lon ip geo weather s).state = s
      ∧ (get_weather lat lon ip geo weather s).calls = [])
    ∧ (get_weather lat lon ip geo weather s).delay = 600000 := by
  unfold get_weather
  cases get_weather_attempt lat lon ip geo weather s with
  | ok r =>
    refine ⟨fun h => ?_, rfl⟩
    exact absurd h (by simp)
  | error e => exact ⟨fun _ => ⟨rfl, rfl⟩, rfl⟩

/-- Witness for C3: a network failure of the weather fetch under the static
coordinates leaves the state untouched, performs no redraw, and reschedules
600000 ms later. -/
theorem weather_failure_preserves_and_reschedules_witness :
    (get_weather LATITUDE LONGITUDE (IpFetch.ok "1.2.3.4")
        (Except.error "geo down") (Except.error "network down")
        initWeatherState).state = initWeatherState
    ∧ (get_weather LATITUDE LONGITUDE (IpFetch.ok "1.2.3.4")
        (Except.error "geo down") (Except.error "network down")
        initWeatherState).calls = []
    ∧ (get_weather LATITUDE LONGITUDE (IpFetch.ok "1.2.3.4")
        (Except.error "geo down") (Except.error "network down")
        initWeatherState).delay = 600000 := by
  have h := weather_failure_preserves_and_reschedules LATITUDE LONGITUDE
    (IpFetch.ok "1.2.3.4") (Except.error "geo down")
    (Except.error "network down") initWeatherState
  exact ⟨(h.1 rfl).1, (h.1 rfl).2, h.2⟩

/-- Claim C10: `get_ip` catches only JSON-decode and missing-key errors,
returning the literal sentinel "Error: Cannot get ip." in those cases, while
a network exception propagates; on the geolocation path the sentinel is
embedded into the geolocation request URL, and a propagated network error is
swallowed by the handler inside `get_weather`. -/
theorem get_ip_error_handling :
    get_ip IpFetch.jsonError = Except.ok "Error: Cannot get ip."
    ∧ get_ip IpFetch.keyError = Except.ok "Error: Cannot get ip."
    ∧ (∀ m, get_ip (IpFetch.networkError m) = Except.error m)
    ∧ (∀ i, get_ip (IpFetch.ok i) = Except.ok i)
    ∧ (∃ a b, actual_location_req_url "Error: Cannot get ip." GEOIP_API_TOKEN
        = a ++ ("Error: Cannot get ip." ++ b))
    ∧ (get_weather none none IpFetch.jsonError
          (Except.ok (GeoResponse.mk 1 2 "c" "r"))
          (Except.ok (WeatherJson.mk 300 "Clear" "clear sky" "01d" "X"))
          initWeatherState).geo_url
        = some (actual_location_req_url "Error: Cannot get ip." GEOIP_API_TOKEN)
    ∧ (get_weather none none (IpFetch.networkError "connection refused")
          (Except.ok (GeoResponse.mk 1 2 "c" "r"))
          (Except.ok (WeatherJson.mk 300 "Clear" "clear sky" "01d" "X"))
          initWeatherState).failed = true := by
  refine ⟨rfl, rfl, fun m => rfl, fun i => rfl,
    ⟨"https://api.freegeoip.app/json                    /",
     "?apikey=" ++ GEOIP_API_TOKEN, by decide⟩, ?_, ?_⟩
  · rfl
  · rfl

/-- Claim C2, counterexample.  Two consecutive polls with identical extracted
fields can still redraw: with the unmapped icon code "99x" the second poll
again calls `icon_lbl.config` with an empty image (and with a location of
`", "` it also
re-issues the location update, since the cache stores the fallback text). -/
theorem weather_redraw_not_suppressed_counterexample :
    (get_weather LATITUDE LONGITUDE (IpFetch.ok "1.2.3.4")
        (Except.error "unused")
        (Except.ok (WeatherJson.mk 300 "Clear" "clear sky" "99x" ", "))
        (get_weather LATITUDE LONGITUDE (IpFetch.ok "1.2.3.4")
            (Except.error "unused")
            (Except.ok (WeatherJson.mk 300 "Clear" "clear sky" "99x" ", "))
            initWeatherState).state).calls ≠ [] := by
  simp only [get_weather_const_ok]
  rw [success_update_eq,
      show (WeatherJson.mk (300 : ℚ) "Clear" "clear sky" "99x" ", ").icon
        = "99x" from rfl,
      show orNone (List.lookup "99x" icon_lookup) = none from by decide]
  simp [update_icon]

/-- Claim C2, amended: for two consecutive weather polls with identical
extracted fields, no redraw call occurs on the second poll, provided the icon
code is present in the lookup table and the location name is not the `", "`
placeholder (in those two cases the source redraws on every poll). -/
theorem weather_redraw_suppressed (ip : IpFetch)
    (geo : Except String GeoResponse) (w : WeatherJson) (s : WeatherState)
    (p : String) (hicon : orNone (List.lookup w.icon icon_lookup) = some p)
    (hname : w.name ≠ ", ") :
    (get_weather LATITUDE LONGITUDE ip geo (Except.ok w)
      (get_weather LATITUDE LONGITUDE ip geo (Except.ok w) s).state).calls
    = [] := by
  simp only [get_weather_const_ok]
  obtain ⟨hc, hf, ht, hi, hl⟩ := success_update_state w s
  rw [success_update_noop w _ p hicon (hi p hicon) hc hf ht (hl hname)]

/-- Witness for C2 at a concrete mapped icon and non-placeholder location. -/
theorem weather_redraw_suppressed_witness :
    (get_weather LATITUDE LONGITUDE (IpFetch.ok "1.2.3.4")
        (Except.error "geo")
        (Except.ok (WeatherJson.mk 300 "Clear" "clear sky" "01d" "Posadas"))
        (get_weather LATITUDE LONGITUDE (IpFetch.ok "1.2.3.4")
            (Except.error "geo")
            (Except.ok (WeatherJson.mk 300 "Clear" "clear sky" "01d" "Posadas"))
            initWeatherState).state).calls = [] :=
  weather_redraw_suppressed (IpFetch.ok "1.2.3.4") (Except.error "geo")
    (WeatherJson.mk 300 "Clear" "clear sky" "01d" "Posadas") initWeatherState
    "assets/Sun.png" (by decide) (by decide)

/-- Claim C6, counterexample.  A geolocation response with blank city and
blank region (assembled location `", "`) does not yield the fallback display:
the assembled string is overwritten by the `name` field of the weather
response
("Springfield" here), which is what gets displayed. -/
theorem location_blank_counterexample :
    (get_weather none none (IpFetch.ok "1.2.3.4")
        (Except.ok (GeoResponse.mk 1 2 "" ""))
        (Except.ok (WeatherJson.mk 300 "Clear" "clear sky" "01d" "Springfield"))
        initWeatherState).state.actual_location_lbl = "Springfield"
    ∧ (get_weather none none (IpFetch.ok "1.2.3.4")
        (Except.ok (GeoResponse.mk 1 2 "" ""))
        (Except.ok (WeatherJson.mk 300 "Clear" "clear sky" "01d" "Springfield"))
        initWeatherState).state.actual_location_lbl
      ≠ "Cannot Pinpoint Location" := by
  have h : (get_weather none none (IpFetch.ok "1.2.3.4")
      (Except.ok (GeoResponse.mk 1 2 "" ""))
      (Except.ok (WeatherJson.mk 300 "Clear" "clear sky" "01d" "Springfield"))
      initWeatherState).state.actual_location_lbl = "Springfield" := by
    simp only [get_weather_geo_ok]
    rw [success_update_eq,
        show (WeatherJson.mk (300 : ℚ) "Clear" "clear sky" "01d"
          "Springfield").name = "Springfield" from rfl]
    rw [update_location_sets]
    · rw [(update_temperature_keeps _ _).2.2.2.2,
          (update_forecast_keeps _ _).2.2.2.2,
          (update_currently_keeps _ _).2.2.2.2,
          (update_icon_keeps _ _).2.2.2]
      decide
    · decide
  exact ⟨h, by rw [h]; decide⟩

/-- Claim C6, amended: the displayed location comes from the weather
`name` field of the weather response (the geolocation city-region assembly is
overwritten before display); whenever that name is the placeholder `", "`
and the cached location differs from `", "`, the displayed location string
becomes "Cannot Pinpoint Location". -/
theorem location_cannot_pinpoint (ip : IpFetch)
    (geo : Except String GeoResponse) (w : WeatherJson) (s : WeatherState)
    (hname : w.name = ", ") (hcache : s.actual_location ≠ ", ") :
    (get_weather LATITUDE LONGITUDE ip geo (Except.ok w) s).state.actual_location_lbl
      = "Cannot Pinpoint Location" := by
  simp only [get_weather_const_ok]
  rw [success_update_eq, hname]
  apply update_location_cpl
  rw [(update_temperature_keeps _ _).2.2.2.2,
      (update_forecast_keeps _ _).2.2.2.2,
      (update_currently_keeps _ _).2.2.2.2,
      (update_icon_keeps _ _).2.2.2]
  exact hcache

/-- Witness for C6 at a concrete weather response whose name is `", "`. -/
theorem location_cannot_pinpoint_witness :
    (get_weather LATITUDE LONGITUDE (IpFetch.ok "1.2.3.4")
        (Except.error "geo")
        (Except.ok (WeatherJson.mk 300 "Clear" "clear sky" "01d" ", "))
        initWeatherState).state.actual_location_lbl
      = "Cannot Pinpoint Location" :=
  location_cannot_pinpoint (IpFetch.ok "1.2.3.4") (Except.error "geo")
    (WeatherJson.mk 300 "Clear" "clear sky" "01d" ", ") initWeatherState
    rfl (by decide)

/-- Claim C8: the geolocation branch is taken exactly when both static
coordinates are `None`; otherwise the weather request carries the static
coordinates and no geolocation URL is requested; on the geolocation branch
the request carries the coordinates of the geolocation response; and with
the constant coordinates of the repo the branch is never taken. -/
theorem geoip_iff_no_static_coords (lat lon : Option ℚ) (ip : IpFetch)
    (geo : Except String GeoResponse) (w : WeatherJson) (s : WeatherState) :
    ((get_weather lat lon ip geo (Except.ok w) s).geoTaken = true
      ↔ lat = none ∧ lon = none)
    ∧ (lat ≠ none ∨ lon ≠ none →
        (get_weather lat lon ip geo (Except.ok w) s).request
          = some (WeatherRequest.mk lat lon WEATHER_LANG WEATHER_API_TOKEN)
        ∧ (get_weather lat lon ip geo (Except.ok w) s).geo_url = none)
    ∧ (∀ i g, (get_weather none none (IpFetch.ok i) (Except.ok g)
          (Except.ok w) s).request
        = some (WeatherRequest.mk (some g.latitude) (some g.longitude)
            WEATHER_LANG WEATHER_API_TOKEN))
    ∧ (get_weather LATITUDE LONGITUDE ip geo (Except.ok w) s).geoTaken
        = false := by
  refine ⟨?_, ?_, ?_, ?_⟩
  · rw [get_weather_geoTaken]
    simp [Option.isNone_iff_eq_none]
  · intro h
    have hb : (lat.isNone && lon.isNone) = false := by
      rcases h with h | h
      · rcases lat with _ | a
        · exact absurd rfl h
        · rfl
      · rcases lon with _ | b
        · exact absurd rfl h
        · simp
    rw [get_weather_static_ok lat lon ip geo w s hb]
    exact ⟨rfl, rfl⟩
  · intro i g
    rw [get_weather_geo_ok]
  · rw [get_weather_geoTaken]
    rfl

/-- Witness for C8: with the static coordinates of the repo the request
carries them and no geolocation URL is fetched. -/
theorem geoip_iff_no_static_coords_witness :
    (get_weather LATITUDE LONGITUDE (IpFetch.ok "ip") (Except.error "geo")
        (Except.ok (WeatherJson.mk 1 "a" "b" "c" "d")) initWeatherState).request
      = some (WeatherRequest.mk LATITUDE LONGITUDE WEATHER_LANG WEATHER_API_TOKEN)
    ∧ (get_weather LATITUDE LONGITUDE (IpFetch.ok "ip") (Except.error "geo")
        (Except.ok (WeatherJson.mk 1 "a" "b" "c" "d")) initWeatherState).geo_url
      = none :=
  (geoip_iff_no_static_coords LATITUDE LONGITUDE (IpFetch.ok "ip")
    (Except.error "geo") (WeatherJson.mk 1 "a" "b" "c" "d")
    initWeatherState).2.1 (Or.inl (by simp [LATITUDE]))

/-- Claim C9: each clock tick updates exactly the sub-labels whose freshly
formatted string differs from the cached value of the previous tick (the
12-hour format is selected since `TIME_FORMAT = 12`), leaves the others
unchanged, and reschedules itself 200 ms later. -/
theorem clock_tick_updates_only_changed (f : String → String)
    (s : ClockState) :
    (Clock.tick f s).1.time_lbl
      = (if f "%I:%M%p" ≠ s.time_old then f "%I:%M%p" else s.time_lbl)
    ∧ (Clock.tick f s).1.day_of_wk_lbl
      = (if f "%A" ≠ s.day_of_week_old then f "%A" else s.day_of_wk_lbl)
    ∧ (Clock.tick f s).1.date_lbl
      = (if f DATE_FORMAT ≠ s.date_old then f DATE_FORMAT else s.date_lbl)
    ∧ (Clock.tick f s).2.2 = 200 := by
  by_cases h1 : f "%I:%M%p" = s.time_old <;>
    by_cases h2 : f "%A" = s.day_of_week_old <;>
      by_cases h3 : f DATE_FORMAT = s.date_old <;>
        simp [Clock.tick, TIME_FORMAT, h1, h2, h3]

end SmartMirror
